import Mathlib

/-!
Shallow embedding of the version-control status subsystem of the
directory-listing tool (sources: src/git.rs, src/meta/git_file_status.rs,
src/color.rs).

Paths (Rust PathBuf) are modelled as lists of components (List String);
Rust Path::starts_with is component-wise prefix, List.isPrefixOf.
The external git2::Status bitflag set is modelled as a structure with one
Bool per flag the sources test.
-/

/-- Models the external git2::Status bitflag value: one Bool per flag that
the sources query with contains. An arbitrary combination of flags is an
arbitrary assignment of the twelve fields. -/
structure Git2Status where
  index_new : Bool := false
  index_deleted : Bool := false
  index_modified : Bool := false
  index_renamed : Bool := false
  index_typechange : Bool := false
  wt_new : Bool := false
  wt_deleted : Bool := false
  wt_modified : Bool := false
  wt_renamed : Bool := false
  wt_typechange : Bool := false
  ignored : Bool := false
  conflicted : Bool := false
deriving DecidableEq, Repr

namespace LsdGit

/-- The GitStatus enum of src/git.rs (eight variants, declaration order as in
the source; derive(PartialOrd, Ord) in Rust orders by declaration order). -/
inductive GitStatus where
  | Unmodified
  | Ignored
  | New
  | Typechange
  | Deleted
  | Renamed
  | Modified
  | Conflicted
deriving DecidableEq, Fintype, Repr

/-- Discriminant of a GitStatus value: its position in the declaration order.
Rust's derived Ord on a fieldless enum compares these. -/
def GitStatus.discr : GitStatus → Nat
  | .Unmodified => 0
  | .Ignored => 1
  | .New => 2
  | .Typechange => 3
  | .Deleted => 4
  | .Renamed => 5
  | .Modified => 6
  | .Conflicted => 7

/-- The derived strict comparison of src/git.rs GitStatus. -/
def GitStatus.lt (a b : GitStatus) : Bool := Nat.blt a.discr b.discr

/-- The derived non-strict comparison of src/git.rs GitStatus. -/
def GitStatus.le (a b : GitStatus) : Bool := Nat.ble a.discr b.discr

/-- Rust std::cmp::max on GitStatus: returns the first argument when it is
strictly greater, otherwise the second. -/
def GitStatus.max (a b : GitStatus) : GitStatus :=
  if GitStatus.lt b a then a else b

/-- The GitStagedStatus pair of src/git.rs. -/
structure GitStagedStatus where
  index : GitStatus
  workdir : GitStatus
deriving DecidableEq, Repr

/-- impl Default for GitStagedStatus in src/git.rs: both sides Unmodified. -/
def GitStagedStatus.default : GitStagedStatus :=
  { index := GitStatus.Unmodified, workdir := GitStatus.Unmodified }

/-- GitStagedStatus::new of src/git.rs: classification of a raw git2::Status
bitflag value, first match wins, per side. -/
def GitStagedStatus.new (status : Git2Status) : GitStagedStatus :=
  { index :=
      if status.index_new then GitStatus.New
      else if status.index_deleted then GitStatus.Deleted
      else if status.index_modified then GitStatus.Modified
      else if status.index_renamed then GitStatus.Renamed
      else if status.index_typechange then GitStatus.Typechange
      else GitStatus.Unmodified,
    workdir :=
      if status.wt_new then GitStatus.New
      else if status.wt_deleted then GitStatus.Deleted
      else if status.wt_modified then GitStatus.Modified
      else if status.wt_renamed then GitStatus.Renamed
      else if status.ignored then GitStatus.Ignored
      else if status.wt_typechange then GitStatus.Typechange
      else if status.conflicted then GitStatus.Conflicted
      else GitStatus.Unmodified }

/-- The fold operation of GitCache::get's directory branch (the closure of
src/git.rs line 134), the combine of spec section 4.3: pairwise maximum. -/
def GitStagedStatus.combine (acc x : GitStagedStatus) : GitStagedStatus :=
  { index := GitStatus.max acc.index x.index,
    workdir := GitStatus.max acc.workdir x.workdir }

/-- The GitCache of src/git.rs: the stored (absolute path, raw status) list
plus the canonicalized construction directory. -/
structure GitCache where
  statuses : List (List String × Git2Status)
  _cached_dir : Option (List String)

/-- GitCache::empty of src/git.rs. -/
def GitCache.empty : GitCache :=
  { statuses := [], _cached_dir := none }

/-- GitCache::get of src/git.rs. Directory query: filter the stored entries
whose path starts with the query path (component-wise), classify, and fold
with the pairwise maximum from the default. File query: first exact match,
default when absent. -/
def GitCache.get (c : GitCache) (filepath : List String) (is_directory : Bool) :
    GitStagedStatus :=
  if is_directory then
    (((c.statuses.filter fun x => filepath.isPrefixOf x.1).map
        fun x => GitStagedStatus.new x.2).foldl
      (fun acc x =>
        { index := GitStatus.max acc.index x.index,
          workdir := GitStatus.max acc.workdir x.workdir })
      GitStagedStatus.default)
  else
    match c.statuses.find? fun x => filepath == x.1 with
    | some e => GitStagedStatus.new e.2
    | none => GitStagedStatus.default

/-- One entry of the git2 status list: the path is None when the raw path is
not valid UTF-8 (status_entry.path() returns Option). -/
structure StatusEntry where
  path : Option (List String)
  status : Git2Status

/-- The result of git2::Repository::discover: a workdir (absent for a bare
repository) and the statuses call's outcome. -/
structure Repo where
  workdir : Option (List String)
  statuses : Except Unit (List StatusEntry)

/-- The environment GitCache::new interacts with: the outcome of
fs::canonicalize on the input path and of git2::Repository::discover. -/
structure GitEnv where
  canonicalize : Except Unit (List String)
  discover : Except Unit Repo

/-- GitCache::new of src/git.rs over an explicit environment. The source
calls fs::canonicalize(path).unwrap() first: a canonicalize error is a panic,
modelled as none. A discover error or a missing workdir yields the empty
cache. A statuses error yields a cache with an empty list (but with the
cached dir set). Each status entry path is unwrapped: a None path is a
panic, modelled as none (List.mapM over Option). -/
def GitCache.new (env : GitEnv) : Option GitCache :=
  match env.canonicalize with
  | .error _ => none
  | .ok cachedir =>
    match env.discover with
    | .error _ => some GitCache.empty
    | .ok repo =>
      match repo.workdir with
      | none => some GitCache.empty
      | some wd =>
        match repo.statuses with
        | .ok entries =>
          match entries.mapM (fun e => e.path.map fun p => (wd ++ p, e.status)) with
          | some sts => some { statuses := sts, _cached_dir := some cachedir }
          | none => none
        | .error _ => some { statuses := [], _cached_dir := some cachedir }

end LsdGit

namespace LsdMeta

/-- Modelled from the spec: the crate::git::GitStatus enumeration referenced
by src/meta/git_file_status.rs and src/color.rs (variants Default,
Unmodified, Ignored, NewInIndex, NewInWorkdir, Typechange, Deleted, Renamed,
Modified, Conflicted). Its declaring file is not among the sources (the
git.rs present holds an older eight-variant version); every variant name
below appears literally in the two source files that use it, and the
declaration order is the spec's order. -/
inductive GitStatus where
  | Default
  | Unmodified
  | Ignored
  | NewInIndex
  | NewInWorkdir
  | Typechange
  | Deleted
  | Renamed
  | Modified
  | Conflicted
deriving DecidableEq, BEq, Fintype, Repr

/-- The GitFileStatus pair of src/meta/git_file_status.rs. -/
structure GitFileStatus where
  index : GitStatus
  workdir : GitStatus
deriving DecidableEq, Repr

/-- impl Default for GitFileStatus in src/meta/git_file_status.rs:
both sides Default. -/
def GitFileStatus.default : GitFileStatus :=
  { index := GitStatus.Default, workdir := GitStatus.Default }

/-- GitFileStatus::new of src/meta/git_file_status.rs: classification of a
raw git2::Status bitflag value, first match wins, per side. -/
def GitFileStatus.new (status : Git2Status) : GitFileStatus :=
  { index :=
      if status.index_new then GitStatus.NewInIndex
      else if status.index_deleted then GitStatus.Deleted
      else if status.index_modified then GitStatus.Modified
      else if status.index_renamed then GitStatus.Renamed
      else if status.index_typechange then GitStatus.Typechange
      else GitStatus.Unmodified,
    workdir :=
      if status.wt_new then GitStatus.NewInWorkdir
      else if status.wt_deleted then GitStatus.Deleted
      else if status.wt_modified then GitStatus.Modified
      else if status.wt_renamed then GitStatus.Renamed
      else if status.ignored then GitStatus.Ignored
      else if status.wt_typechange then GitStatus.Typechange
      else if status.conflicted then GitStatus.Conflicted
      else GitStatus.Unmodified }

/-- Models the subset of the external ansi_term Colour enum that
src/color.rs uses. -/
inductive Colour where
  | White
  | Green
  | Red
  | Blue
  | Yellow
  | Purple
  | Fixed (n : Nat)
deriving DecidableEq, BEq, Repr

/-- The Elem enumeration of src/color.rs. The GitStatus variant is
feature-gated in the source; per the spec it is modelled as always present. -/
inductive Elem where
  | File (exec uid : Bool)
  | SymLink
  | BrokenSymLink
  | Dir (uid : Bool)
  | Pipe
  | BlockDevice
  | CharDevice
  | Socket
  | Special
  | Read
  | Write
  | Exec
  | ExecSticky
  | NoAccess
  | DayOld
  | HourOld
  | Older
  | User
  | Group
  | NonFile
  | FileLarge
  | FileMedium
  | FileSmall
  | INode (valid : Bool)
  | Links (valid : Bool)
  | TreeEdge
  | GitStatus (status : GitStatus)
deriving DecidableEq, BEq, Fintype, Repr

/-- Elem::has_suid of src/color.rs. -/
def Elem.has_suid : Elem → Bool
  | Elem.Dir true => true
  | Elem.File _ true => true
  | _ => false

/-- Colors::get_light_theme_colour_map of src/color.rs, as the association
list of its insert calls in source order (the HashMap has no duplicate keys,
so association-list lookup models HashMap lookup). The TreeEdge insert is
commented out in the source and is therefore absent. -/
def get_light_theme_colour_map : List (Elem × Colour) :=
  [ (Elem.User, Colour.Fixed 230),
    (Elem.Group, Colour.Fixed 187),
    (Elem.Read, Colour.Green),
    (Elem.Write, Colour.Yellow),
    (Elem.Exec, Colour.Red),
    (Elem.ExecSticky, Colour.Purple),
    (Elem.NoAccess, Colour.Fixed 245),
    (Elem.File false false, Colour.Fixed 184),
    (Elem.File false true, Colour.Fixed 184),
    (Elem.File true false, Colour.Fixed 40),
    (Elem.File true true, Colour.Fixed 40),
    (Elem.Dir true, Colour.Fixed 33),
    (Elem.Dir false, Colour.Fixed 33),
    (Elem.Pipe, Colour.Fixed 44),
    (Elem.SymLink, Colour.Fixed 44),
    (Elem.BrokenSymLink, Colour.Fixed 124),
    (Elem.BlockDevice, Colour.Fixed 44),
    (Elem.CharDevice, Colour.Fixed 172),
    (Elem.Socket, Colour.Fixed 44),
    (Elem.Special, Colour.Fixed 44),
    (Elem.HourOld, Colour.Fixed 40),
    (Elem.DayOld, Colour.Fixed 42),
    (Elem.Older, Colour.Fixed 36),
    (Elem.NonFile, Colour.Fixed 245),
    (Elem.FileSmall, Colour.Fixed 229),
    (Elem.FileMedium, Colour.Fixed 216),
    (Elem.FileLarge, Colour.Fixed 172),
    (Elem.INode true, Colour.Fixed 13),
    (Elem.INode false, Colour.Fixed 245),
    (Elem.Links true, Colour.Fixed 13),
    (Elem.Links false, Colour.Fixed 245),
    (Elem.GitStatus GitStatus.Default, Colour.White),
    (Elem.GitStatus GitStatus.Unmodified, Colour.White),
    (Elem.GitStatus GitStatus.Ignored, Colour.Fixed 245),
    (Elem.GitStatus GitStatus.NewInIndex, Colour.Green),
    (Elem.GitStatus GitStatus.NewInWorkdir, Colour.White),
    (Elem.GitStatus GitStatus.Typechange, Colour.White),
    (Elem.GitStatus GitStatus.Deleted, Colour.Red),
    (Elem.GitStatus GitStatus.Renamed, Colour.Fixed 172),
    (Elem.GitStatus GitStatus.Modified, Colour.Blue),
    (Elem.GitStatus GitStatus.Conflicted, Colour.Red) ]

/-- Models the external ansi_term Style as used by src/color.rs: an optional
foreground colour and an optional background colour (the only fields the
source sets, via Style::default().fg(..) and .on(..)). -/
structure Style where
  fg : Option Colour
  bg : Option Colour
deriving DecidableEq, Repr

/-- Style::default of ansi_term: the plain style. -/
def Style.plain : Style := { fg := none, bg := none }

/-- Colors::style_default of src/color.rs. The source indexes the HashMap
with colors[elem], which panics when the key is absent: a missing entry is
modelled as none. -/
def style_default (colors : Option (List (Elem × Colour))) (elem : Elem) :
    Option Style :=
  match colors with
  | some m =>
    match m.lookup elem with
    | some c =>
      some (if elem.has_suid then { fg := some c, bg := some (Colour.Fixed 124) }
            else { fg := some c, bg := none })
    | none => none
  | none => some Style.plain

/-- Colors::get_indicator_from_elem of src/color.rs, returning the indicator
code string. Every code the source returns is a valid lscolors Indicator, so
Indicator::from is the identity on them. -/
def get_indicator_from_elem (elem : Elem) : Option String :=
  match elem with
  | Elem.File exec uid =>
    match exec, uid with
    | _, true => none
    | true, false => some "ex"
    | false, false => some "fi"
  | Elem.Dir uid => if uid then none else some "di"
  | Elem.SymLink => some "ln"
  | Elem.Pipe => some "pi"
  | Elem.Socket => some "so"
  | Elem.BlockDevice => some "bd"
  | Elem.CharDevice => some "cd"
  | Elem.BrokenSymLink => some "or"
  | Elem.INode valid => if valid then some "so" else some "no"
  | Elem.Links valid => if valid then some "so" else some "no"
  | _ => none

/-- The Colors struct of src/color.rs: the optional element colour map and
the optional lscolors database, the latter modelled as a function from
indicator code to an optional style (LsColors::style_for_indicator). -/
structure Colors where
  colors : Option (List (Elem × Colour))
  lscolors : Option (String → Option Style)

/-- Colors::style of src/color.rs. With an lscolors database present, an
element that yields an indicator is styled from the database
(unwrap_or_default on a miss); otherwise style_default applies. -/
def Colors.style (c : Colors) (elem : Elem) : Option Style :=
  match c.lscolors with
  | some db =>
    match get_indicator_from_elem elem with
    | some ids => some ((db ids).getD Style.plain)
    | none => style_default c.colors elem
  | none => style_default c.colors elem

/-- Models ansi_term ANSIString: a style applied to a text. -/
structure ColoredString where
  style : Style
  text : String
deriving Repr

/-- Colors::colorize of src/color.rs: paint the input with the element's
style (none models the panic of a missing colour-map entry). -/
def Colors.colorize (c : Colors) (input : String) (elem : Elem) :
    Option ColoredString :=
  (c.style elem).map fun s => { style := s, text := input }

/-- ANSI escape code of a foreground colour, as emitted by ansi_term. -/
def Colour.fgCode : Colour → String
  | Colour.White => "37"
  | Colour.Green => "32"
  | Colour.Red => "31"
  | Colour.Blue => "34"
  | Colour.Yellow => "33"
  | Colour.Purple => "35"
  | Colour.Fixed n => "38;5;" ++ toString n

/-- Painting one ANSIString on its own, as ansi_term displays it: style
escape sequence, text, reset (nothing around the text for the plain style).
Only foreground-only and plain styles reach the render path modelled here. -/
def paint (s : Style) (t : String) : String :=
  match s.fg with
  | some c => "\x1b[" ++ c.fgCode ++ "m" ++ t ++ "\x1b[0m"
  | none => t

/-- Models ANSIStrings(..).to_string() of ansi_term for the shapes the
renderer produces: for a sequence whose items are each plain or a single
foreground colour, separated by plain text, ansi_term's escape-minimising
display coincides with painting each piece independently and concatenating
(the transition from a coloured piece to the plain separator is exactly the
reset, and the transition from the plain separator to a coloured piece is
exactly that piece's prefix). -/
def ansiStringsToString (l : List ColoredString) : String :=
  (l.map fun cs => paint cs.style cs.text).foldl (fun a b => a ++ b) ""

/-- GitFileStatus::render of src/meta/git_file_status.rs: the index-side
glyph colorized by the index-side status element, a single plain space, and
the workdir-side glyph colorized by the workdir-side status element, joined
by the ANSIStrings display. The icon set (icons.get_status, whose defining
file is not among the sources) is an arbitrary glyph function. none models a
colorize panic on a missing colour-map entry. -/
def GitFileStatus.render (self : GitFileStatus) (colors : Colors)
    (icons : GitStatus → String) : Option String :=
  match colors.colorize (icons self.index) (Elem.GitStatus self.index),
      colors.colorize (icons self.workdir) (Elem.GitStatus self.workdir) with
  | some a, some b =>
    some (ansiStringsToString [a, { style := Style.plain, text := " " }, b])
  | _, _ => none

end LsdMeta

namespace LsdGit

/-- A raw status with only the WT_NEW flag set. -/
def stWtNew : Git2Status := { wt_new := true }

/-- A raw status with only the WT_MODIFIED flag set. -/
def stWtModified : Git2Status := { wt_modified := true }

/-- A raw status with the INDEX_NEW and WT_NEW flags set. -/
def stNewBoth : Git2Status := { index_new := true, wt_new := true }

/-- The cache of the directory-aggregation example: a/x is new in the
workdir, a/y is modified in the workdir. -/
def exampleCache : GitCache :=
  { statuses := [(["a", "x"], stWtNew), (["a", "y"], stWtModified)],
    _cached_dir := none }

/-- A cache whose single entry does not lie under the queried directory. -/
def disjointCache : GitCache :=
  { statuses := [(["b"], stWtNew)], _cached_dir := none }

/-- A cache with the single entry a/x, modified in the workdir. -/
def singletonCache : GitCache :=
  { statuses := [(["a", "x"], stWtModified)], _cached_dir := none }

end LsdGit

namespace LsdGit

theorem gitStatus_max_unmodified_left :
    ∀ x : GitStatus, GitStatus.max GitStatus.Unmodified x = x := by decide

theorem gitStatus_max_comm :
    ∀ a b : GitStatus, GitStatus.max a b = GitStatus.max b a := by decide

theorem gitStatus_max_assoc :
    ∀ a b c : GitStatus,
      GitStatus.max (GitStatus.max a b) c = GitStatus.max a (GitStatus.max b c) := by
  decide

theorem gitStatus_le_refl : ∀ a : GitStatus, GitStatus.le a a = true := by decide

theorem gitStatus_le_trans :
    ∀ a b c : GitStatus,
      GitStatus.le a b = true → GitStatus.le b c = true → GitStatus.le a c = true := by
  decide

theorem gitStatus_le_max_left :
    ∀ a b : GitStatus, GitStatus.le a (GitStatus.max a b) = true := by decide

theorem gitStatus_le_max_right :
    ∀ a b : GitStatus, GitStatus.le b (GitStatus.max a b) = true := by decide

theorem combine_comm (a b : GitStagedStatus) :
    GitStagedStatus.combine a b = GitStagedStatus.combine b a := by
  simp only [GitStagedStatus.combine]
  rw [gitStatus_max_comm a.index b.index, gitStatus_max_comm a.workdir b.workdir]

theorem combine_assoc (a b c : GitStagedStatus) :
    GitStagedStatus.combine (GitStagedStatus.combine a b) c =
      GitStagedStatus.combine a (GitStagedStatus.combine b c) := by
  simp only [GitStagedStatus.combine]
  rw [gitStatus_max_assoc a.index b.index c.index,
    gitStatus_max_assoc a.workdir b.workdir c.workdir]

theorem combine_default_left (x : GitStagedStatus) :
    GitStagedStatus.combine GitStagedStatus.default x = x := by
  obtain ⟨i, w⟩ := x
  simp [GitStagedStatus.combine, GitStagedStatus.default, gitStatus_max_unmodified_left]

/-- The directory branch of GitCache::get is the fold of combine over the
classified matching entries (definitional unfolding). -/
theorem gitCache_get_dir_eq (c : GitCache) (p : List String) :
    c.get p true =
      ((c.statuses.filter fun x => p.isPrefixOf x.1).map
        fun x => GitStagedStatus.new x.2).foldl
        GitStagedStatus.combine GitStagedStatus.default := rfl

/-- The file branch of GitCache::get is the first exact match
(definitional unfolding). -/
theorem gitCache_get_file_eq (c : GitCache) (p : List String) :
    c.get p false =
      (match c.statuses.find? fun x => p == x.1 with
       | some e => GitStagedStatus.new e.2
       | none => GitStagedStatus.default) := rfl

/-- Claim C1, amended to the enumeration actually declared in src/git.rs:
the derived comparison of GitStatus is a strict total order with exactly the
ranking Unmodified < Ignored < New < Typechange < Deleted < Renamed <
Modified < Conflicted; it is transitive, asymmetric and antisymmetric,
Conflicted is the unique maximum and Unmodified (not a Default variant,
which does not exist in this enumeration) is the unique minimum. -/
theorem c1_gitStatus_strict_total_order :
    (∀ a b c : GitStatus,
      GitStatus.lt a b = true → GitStatus.lt b c = true → GitStatus.lt a c = true)
  ∧ (∀ a b : GitStatus, GitStatus.lt a b = true → GitStatus.lt b a = false)
  ∧ (∀ a b : GitStatus,
      GitStatus.le a b = true → GitStatus.le b a = true → a = b)
  ∧ (∀ a b : GitStatus, a ≠ b → GitStatus.lt a b = true ∨ GitStatus.lt b a = true)
  ∧ (∀ a : GitStatus, a ≠ GitStatus.Conflicted →
      GitStatus.lt a GitStatus.Conflicted = true)
  ∧ (∀ a : GitStatus, a ≠ GitStatus.Unmodified →
      GitStatus.lt GitStatus.Unmodified a = true)
  ∧ (GitStatus.lt GitStatus.Unmodified GitStatus.Ignored = true
     ∧ GitStatus.lt GitStatus.Ignored GitStatus.New = true
     ∧ GitStatus.lt GitStatus.New GitStatus.Typechange = true
     ∧ GitStatus.lt GitStatus.Typechange GitStatus.Deleted = true
     ∧ GitStatus.lt GitStatus.Deleted GitStatus.Renamed = true
     ∧ GitStatus.lt GitStatus.Renamed GitStatus.Modified = true
     ∧ GitStatus.lt GitStatus.Modified GitStatus.Conflicted = true) := by
  decide

/-- Witness for claim C1: the order facts instantiated at concrete statuses,
with the hypotheses discharged there. -/
theorem c1_gitStatus_strict_total_order_witness :
    GitStatus.lt GitStatus.Unmodified GitStatus.Ignored = true
  ∧ GitStatus.lt GitStatus.Ignored GitStatus.New = true
  ∧ GitStatus.lt GitStatus.Unmodified GitStatus.New = true
  ∧ GitStatus.Ignored ≠ GitStatus.Conflicted
  ∧ GitStatus.lt GitStatus.Ignored GitStatus.Conflicted = true :=
  ⟨by decide, by decide,
    c1_gitStatus_strict_total_order.1 GitStatus.Unmodified GitStatus.Ignored
      GitStatus.New (by decide) (by decide),
    by decide,
    c1_gitStatus_strict_total_order.2.2.2.2.1 GitStatus.Ignored (by decide)⟩

/-- Counterexample to claim C1 as stated: the GitStatus enumeration of
src/git.rs has exactly eight values, and no value whatsoever compares
strictly below Unmodified, so the claimed ten-step ranking with a Default
value strictly below Unmodified (and a split New) is false of this code. -/
theorem c1_counterexample_no_default_below_unmodified :
    Fintype.card GitStatus = 8
  ∧ GitStatus.lt GitStatus.Unmodified GitStatus.Unmodified = false
  ∧ GitStatus.lt GitStatus.Ignored GitStatus.Unmodified = false
  ∧ GitStatus.lt GitStatus.New GitStatus.Unmodified = false
  ∧ GitStatus.lt GitStatus.Typechange GitStatus.Unmodified = false
  ∧ GitStatus.lt GitStatus.Deleted GitStatus.Unmodified = false
  ∧ GitStatus.lt GitStatus.Renamed GitStatus.Unmodified = false
  ∧ GitStatus.lt GitStatus.Modified GitStatus.Unmodified = false
  ∧ GitStatus.lt GitStatus.Conflicted GitStatus.Unmodified = false := by
  decide

/-- Claim C2: combine is the pairwise maximum, is commutative and
associative, is exactly the operation folded by the directory branch of
GitCache::get, and therefore the fold's result is invariant under any
permutation of the entry list (traversal order independence). -/
theorem c2_combine_comm_assoc :
    (∀ a b : GitStagedStatus,
      GitStagedStatus.combine a b =
        { index := GitStatus.max a.index b.index,
          workdir := GitStatus.max a.workdir b.workdir })
  ∧ (∀ a b : GitStagedStatus,
      GitStagedStatus.combine a b = GitStagedStatus.combine b a)
  ∧ (∀ a b c : GitStagedStatus,
      GitStagedStatus.combine (GitStagedStatus.combine a b) c =
        GitStagedStatus.combine a (GitStagedStatus.combine b c))
  ∧ (∀ (c : GitCache) (p : List String),
      c.get p true =
        ((c.statuses.filter fun x => p.isPrefixOf x.1).map
          fun x => GitStagedStatus.new x.2).foldl
          GitStagedStatus.combine GitStagedStatus.default)
  ∧ (∀ l₁ l₂ : List GitStagedStatus, l₁.Perm l₂ →
      l₁.foldl GitStagedStatus.combine GitStagedStatus.default =
        l₂.foldl GitStagedStatus.combine GitStagedStatus.default) := by
  refine ⟨fun a b => rfl, combine_comm, combine_assoc, gitCache_get_dir_eq, ?_⟩
  intro l₁ l₂ h
  refine h.foldl_eq' (fun x _ y _ z => ?_) _
  rw [combine_assoc, combine_assoc, combine_comm x y]

/-- Witness for claim C2: the fold over a concrete two-element status list
equals the fold over its reversal, by the permutation-invariance part of the
claim, with the permutation hypothesis discharged concretely. -/
theorem c2_combine_comm_assoc_witness :
    ([⟨GitStatus.New, GitStatus.Modified⟩, ⟨GitStatus.Deleted, GitStatus.Ignored⟩]
        : List GitStagedStatus).Perm
      [⟨GitStatus.Deleted, GitStatus.Ignored⟩, ⟨GitStatus.New, GitStatus.Modified⟩]
  ∧ ([⟨GitStatus.New, GitStatus.Modified⟩,
      ⟨GitStatus.Deleted, GitStatus.Ignored⟩] : List GitStagedStatus).foldl
      GitStagedStatus.combine GitStagedStatus.default =
    ([⟨GitStatus.Deleted, GitStatus.Ignored⟩,
      ⟨GitStatus.New, GitStatus.Modified⟩] : List GitStagedStatus).foldl
      GitStagedStatus.combine GitStagedStatus.default :=
  ⟨by decide,
    c2_combine_comm_assoc.2.2.2.2
      [⟨GitStatus.New, GitStatus.Modified⟩, ⟨GitStatus.Deleted, GitStatus.Ignored⟩]
      [⟨GitStatus.Deleted, GitStatus.Ignored⟩, ⟨GitStatus.New, GitStatus.Modified⟩]
      (by decide)⟩

/-- The index field of a combine-fold is the max-fold of the index fields. -/
theorem foldl_combine_index (l : List GitStagedStatus) (acc : GitStagedStatus) :
    (l.foldl GitStagedStatus.combine acc).index =
      (l.map GitStagedStatus.index).foldl GitStatus.max acc.index := by
  induction l generalizing acc with
  | nil => rfl
  | cons y t ih =>
    simp only [List.foldl_cons, List.map_cons]
    rw [ih]
    rfl

/-- The workdir field of a combine-fold is the max-fold of the workdir
fields. -/
theorem foldl_combine_workdir (l : List GitStagedStatus) (acc : GitStagedStatus) :
    (l.foldl GitStagedStatus.combine acc).workdir =
      (l.map GitStagedStatus.workdir).foldl GitStatus.max acc.workdir := by
  induction l generalizing acc with
  | nil => rfl
  | cons y t ih =>
    simp only [List.foldl_cons, List.map_cons]
    rw [ih]
    rfl

/-- Claim C3, amended to the default actually declared in src/git.rs: an
empty cache (as produced by construction over a path outside any
repository) answers every query, for every path and both is_directory
values, with the default GitStagedStatus, which is
index Unmodified, workdir Unmodified (not a Default variant). -/
theorem c3_empty_cache_returns_unmodified_pair :
    (∀ (env : GitEnv) (cdir : List String),
      env.canonicalize = Except.ok cdir → env.discover = Except.error () →
        GitCache.new env = some GitCache.empty)
  ∧ (∀ (p : List String) (b : Bool),
      GitCache.empty.get p b = GitStagedStatus.default)
  ∧ GitStagedStatus.default =
      { index := GitStatus.Unmodified, workdir := GitStatus.Unmodified } := by
  refine ⟨?_, ?_, rfl⟩
  · intro env cdir h1 h2
    simp [GitCache.new, h1, h2]
  · intro p b
    cases b <;> rfl

/-- Witness for claim C3: a concrete environment whose discovery fails
yields the empty cache, and the empty cache answers a concrete query with
the default pair. -/
theorem c3_empty_cache_returns_unmodified_pair_witness :
    (GitEnv.mk (Except.ok []) (Except.error ())).canonicalize =
      Except.ok ([] : List String)
  ∧ (GitEnv.mk (Except.ok []) (Except.error ())).discover =
      Except.error ()
  ∧ GitCache.new (GitEnv.mk (Except.ok []) (Except.error ())) =
      some GitCache.empty
  ∧ GitCache.empty.get ["a"] true = GitStagedStatus.default :=
  ⟨rfl, rfl,
    c3_empty_cache_returns_unmodified_pair.1 (GitEnv.mk (Except.ok []) (Except.error ())) [] rfl rfl,
    c3_empty_cache_returns_unmodified_pair.2.1 ["a"] true⟩

/-- Counterexample to claim C3 as stated: the empty cache's answer is the
pair with both sides Unmodified, and the status enumeration of src/git.rs
has exactly eight values, none of which compares strictly below Unmodified,
so no Default value (which the claim requires, strictly below Unmodified)
exists in this code. -/
theorem c3_counterexample_empty_cache_not_default_pair :
    GitCache.empty.get ["a"] false =
      { index := GitStatus.Unmodified, workdir := GitStatus.Unmodified }
  ∧ GitCache.empty.get ["a"] true =
      { index := GitStatus.Unmodified, workdir := GitStatus.Unmodified }
  ∧ Fintype.card GitStatus = 8
  ∧ GitStatus.lt GitStatus.Unmodified GitStatus.Unmodified = false
  ∧ GitStatus.lt GitStatus.Ignored GitStatus.Unmodified = false
  ∧ GitStatus.lt GitStatus.New GitStatus.Unmodified = false
  ∧ GitStatus.lt GitStatus.Typechange GitStatus.Unmodified = false
  ∧ GitStatus.lt GitStatus.Deleted GitStatus.Unmodified = false
  ∧ GitStatus.lt GitStatus.Renamed GitStatus.Unmodified = false
  ∧ GitStatus.lt GitStatus.Modified GitStatus.Unmodified = false
  ∧ GitStatus.lt GitStatus.Conflicted GitStatus.Unmodified = false := by
  decide

/-- Claim C4: a directory query is the pairwise-maximum fold, over both
fields, of the classified statuses of the stored entries whose path the
query path is a prefix of; an empty match set yields the default; and on
the concrete example cache (a/x new in workdir, a/y modified in workdir)
the directory a aggregates to workdir Modified. -/
theorem c4_get_directory_is_pairwise_max_fold :
    (∀ (c : GitCache) (p : List String),
      (c.get p true).index =
        ((c.statuses.filter fun x => p.isPrefixOf x.1).map
          fun x => (GitStagedStatus.new x.2).index).foldl
          GitStatus.max GitStatus.Unmodified
      ∧ (c.get p true).workdir =
        ((c.statuses.filter fun x => p.isPrefixOf x.1).map
          fun x => (GitStagedStatus.new x.2).workdir).foldl
          GitStatus.max GitStatus.Unmodified)
  ∧ (∀ (c : GitCache) (p : List String),
      (c.statuses.filter fun x => p.isPrefixOf x.1) = [] →
        c.get p true = GitStagedStatus.default)
  ∧ (exampleCache.get ["a"] true).workdir = GitStatus.Modified := by
  refine ⟨?_, ?_, by decide⟩
  · intro c p
    constructor
    · rw [gitCache_get_dir_eq, foldl_combine_index, List.map_map]
      rfl
    · rw [gitCache_get_dir_eq, foldl_combine_workdir, List.map_map]
      rfl
  · intro c p h
    rw [gitCache_get_dir_eq, h]
    rfl

/-- Witness for claim C4: on a concrete cache whose single entry is not
under the queried directory, the match set is empty and the query returns
the default. -/
theorem c4_get_directory_is_pairwise_max_fold_witness :
    (disjointCache.statuses.filter fun x => ["a"].isPrefixOf x.1) = []
  ∧ disjointCache.get ["a"] true = GitStagedStatus.default :=
  ⟨rfl, c4_get_directory_is_pairwise_max_fold.2.1 disjointCache ["a"] rfl⟩

/-- Claim C5: a file query is an exact first-match lookup in the stored
list: when no stored path equals the query the default is returned, and
when the first entry with the query's path holds raw status s the result is
exactly the classification of s, regardless of every other entry. -/
theorem c5_get_file_exact_match :
    (∀ (c : GitCache) (p : List String),
      (∀ e ∈ c.statuses, e.1 ≠ p) → c.get p false = GitStagedStatus.default)
  ∧ (∀ (pre post : List (List String × Git2Status)) (p : List String)
      (s : Git2Status) (d : Option (List String)),
      (∀ e ∈ pre, e.1 ≠ p) →
        (GitCache.mk (pre ++ (p, s) :: post) d).get p false =
          GitStagedStatus.new s) := by
  constructor
  · intro c p h
    rw [gitCache_get_file_eq]
    have hn : (c.statuses.find? fun x => p == x.1) = none := by
      rw [List.find?_eq_none]
      intro x hx
      simp only [beq_iff_eq]
      intro hq
      exact h x hx hq.symm
    rw [hn]
  · intro pre post p s d h
    rw [gitCache_get_file_eq]
    have hpre : (pre.find? fun x => p == x.1) = none := by
      rw [List.find?_eq_none]
      intro x hx
      simp only [beq_iff_eq]
      intro hq
      exact h x hx hq.symm
    have hcons : (((p, s) :: post).find? fun x => p == x.1) = some (p, s) :=
      List.find?_cons_of_pos _ (by simp)
    show (match (pre ++ (p, s) :: post).find? fun x => p == x.1 with
          | some e => GitStagedStatus.new e.2
          | none => GitStagedStatus.default) = GitStagedStatus.new s
    rw [List.find?_append, hpre, hcons]
    rfl

/-- Witness for claim C5: a concrete cache storing exactly a/x returns
exactly the stored classification for the exact query, with the no-earlier-
match hypothesis discharged on the empty list. -/
theorem c5_get_file_exact_match_witness :
    (∀ e ∈ ([] : List (List String × Git2Status)), e.1 ≠ ["a", "x"])
  ∧ singletonCache.get ["a", "x"] false = GitStagedStatus.new stWtModified :=
  ⟨by simp,
    c5_get_file_exact_match.2 [] [] ["a", "x"] stWtModified none (by simp)⟩

/-- Hypotheses-free part of the fold bound: the accumulator never decreases
along a combine-fold. -/
theorem le_foldl_combine_acc (l : List GitStagedStatus) (acc : GitStagedStatus) :
    GitStatus.le acc.index ((l.foldl GitStagedStatus.combine acc).index) = true
  ∧ GitStatus.le acc.workdir ((l.foldl GitStagedStatus.combine acc).workdir) = true := by
  induction l generalizing acc with
  | nil => exact ⟨gitStatus_le_refl _, gitStatus_le_refl _⟩
  | cons y t ih =>
    have h := ih (GitStagedStatus.combine acc y)
    exact ⟨gitStatus_le_trans _ _ _ (gitStatus_le_max_left acc.index y.index) h.1,
      gitStatus_le_trans _ _ _ (gitStatus_le_max_left acc.workdir y.workdir) h.2⟩

/-- Every member of the folded list is bounded by the combine-fold's result,
field-wise. -/
theorem mem_le_foldl_combine (l : List GitStagedStatus) (acc x : GitStagedStatus)
    (hx : x ∈ l) :
    GitStatus.le x.index ((l.foldl GitStagedStatus.combine acc).index) = true
  ∧ GitStatus.le x.workdir ((l.foldl GitStagedStatus.combine acc).workdir) = true := by
  induction l generalizing acc with
  | nil => cases hx
  | cons y t ih =>
    cases hx with
    | head =>
      have h := le_foldl_combine_acc t (GitStagedStatus.combine acc x)
      exact ⟨gitStatus_le_trans _ _ _ (gitStatus_le_max_right acc.index x.index) h.1,
        gitStatus_le_trans _ _ _ (gitStatus_le_max_right acc.workdir x.workdir) h.2⟩
    | tail _ hmem => exact ih (GitStagedStatus.combine acc y) hmem

/-- Claim C10: the containment test of a directory query is component-wise
on path segments: an entry stored at the queried path itself is included
(on a singleton cache the aggregate is exactly its classification), a
stored path that merely extends the query textually in its first segment
(ab/x queried by a) contributes nothing, and in general every stored entry
the query path is a segment-wise prefix of is included in the aggregate,
field-wise. -/
theorem c10_prefix_match_component_wise :
    (∀ (s : Git2Status) (d : Option (List String)),
      (GitCache.mk [(["a"], s)] d).get ["a"] true = GitStagedStatus.new s)
  ∧ (∀ (s : Git2Status) (d : Option (List String)),
      (GitCache.mk [(["ab", "x"], s)] d).get ["a"] true = GitStagedStatus.default)
  ∧ (∀ (c : GitCache) (p : List String) (e : List String × Git2Status),
      e ∈ c.statuses → p.isPrefixOf e.1 = true →
        GitStatus.le ((GitStagedStatus.new e.2).index) ((c.get p true).index) = true
      ∧ GitStatus.le ((GitStagedStatus.new e.2).workdir) ((c.get p true).workdir) = true) := by
  refine ⟨?_, ?_, ?_⟩
  · intro s d
    have h : (GitCache.mk [(["a"], s)] d).get ["a"] true =
        GitStagedStatus.combine GitStagedStatus.default (GitStagedStatus.new s) := rfl
    rw [h, combine_default_left]
  · intro s d
    rfl
  · intro c p e he hp
    rw [gitCache_get_dir_eq]
    exact mem_le_foldl_combine _ _ _
      (List.mem_map_of_mem _ (List.mem_filter.mpr ⟨he, hp⟩))

/-- Witness for claim C10: the singleton cache entry a/x is a member, the
query a is a component-wise prefix of it, and its classification is bounded
by the aggregate of the directory query. -/
theorem c10_prefix_match_component_wise_witness :
    ((["a", "x"], stWtModified) ∈ singletonCache.statuses)
  ∧ (["a"].isPrefixOf ["a", "x"] = true)
  ∧ (GitStatus.le ((GitStagedStatus.new stWtModified).index)
      ((singletonCache.get ["a"] true).index) = true
    ∧ GitStatus.le ((GitStagedStatus.new stWtModified).workdir)
      ((singletonCache.get ["a"] true).workdir) = true) :=
  ⟨by simp [singletonCache], rfl,
    c10_prefix_match_component_wise.2.2 singletonCache ["a"]
      (["a", "x"], stWtModified) (by simp [singletonCache]) rfl⟩

/-- Claim C8, the construction path evaluated at the failing input: a
canonicalization failure (the input path does not exist) makes
GitCache::new panic through unwrap, modelled as none, before any
repository discovery; by contrast a discovery failure after a successful
canonicalization does degrade to the empty cache. -/
theorem c8_new_panics_on_canonicalize_failure :
    GitCache.new
      { canonicalize := Except.error (), discover := Except.error () } = none
  ∧ GitCache.new
      { canonicalize := Except.error (),
        discover := Except.ok { workdir := some [], statuses := Except.ok [] } } = none
  ∧ GitCache.new
      { canonicalize := Except.ok ["r"], discover := Except.error () } =
      some GitCache.empty := by
  exact ⟨rfl, rfl, rfl⟩

end LsdGit

namespace LsdMeta

/-- Claim C6: the classification of src/meta/git_file_status.rs evaluates
its table top-to-bottom with first match winning, per side: the index side
maps INDEX_NEW to NewInIndex, then INDEX_DELETED to Deleted, INDEX_MODIFIED
to Modified, INDEX_RENAMED to Renamed, INDEX_TYPECHANGE to Typechange, else
Unmodified; the workdir side maps WT_NEW to NewInWorkdir, then WT_DELETED
to Deleted, WT_MODIFIED to Modified, WT_RENAMED to Renamed, IGNORED to
Ignored, WT_TYPECHANGE to Typechange, CONFLICTED to Conflicted, else
Unmodified. -/
theorem c6_classification_first_match_wins :
    ∀ s : Git2Status,
      (s.index_new = true → (GitFileStatus.new s).index = GitStatus.NewInIndex)
    ∧ (s.index_new = false → s.index_deleted = true →
        (GitFileStatus.new s).index = GitStatus.Deleted)
    ∧ (s.index_new = false → s.index_deleted = false → s.index_modified = true →
        (GitFileStatus.new s).index = GitStatus.Modified)
    ∧ (s.index_new = false → s.index_deleted = false → s.index_modified = false →
        s.index_renamed = true → (GitFileStatus.new s).index = GitStatus.Renamed)
    ∧ (s.index_new = false → s.index_deleted = false → s.index_modified = false →
        s.index_renamed = false → s.index_typechange = true →
        (GitFileStatus.new s).index = GitStatus.Typechange)
    ∧ (s.index_new = false → s.index_deleted = false → s.index_modified = false →
        s.index_renamed = false → s.index_typechange = false →
        (GitFileStatus.new s).index = GitStatus.Unmodified)
    ∧ (s.wt_new = true → (GitFileStatus.new s).workdir = GitStatus.NewInWorkdir)
    ∧ (s.wt_new = false → s.wt_deleted = true →
        (GitFileStatus.new s).workdir = GitStatus.Deleted)
    ∧ (s.wt_new = false → s.wt_deleted = false → s.wt_modified = true →
        (GitFileStatus.new s).workdir = GitStatus.Modified)
    ∧ (s.wt_new = false → s.wt_deleted = false → s.wt_modified = false →
        s.wt_renamed = true → (GitFileStatus.new s).workdir = GitStatus.Renamed)
    ∧ (s.wt_new = false → s.wt_deleted = false → s.wt_modified = false →
        s.wt_renamed = false → s.ignored = true →
        (GitFileStatus.new s).workdir = GitStatus.Ignored)
    ∧ (s.wt_new = false → s.wt_deleted = false → s.wt_modified = false →
        s.wt_renamed = false → s.ignored = false → s.wt_typechange = true →
        (GitFileStatus.new s).workdir = GitStatus.Typechange)
    ∧ (s.wt_new = false → s.wt_deleted = false → s.wt_modified = false →
        s.wt_renamed = false → s.ignored = false → s.wt_typechange = false →
        s.conflicted = true →
        (GitFileStatus.new s).workdir = GitStatus.Conflicted)
    ∧ (s.wt_new = false → s.wt_deleted = false → s.wt_modified = false →
        s.wt_renamed = false → s.ignored = false → s.wt_typechange = false →
        s.conflicted = false →
        (GitFileStatus.new s).workdir = GitStatus.Unmodified) := by
  intro s
  refine ⟨?_, ?_, ?_, ?_, ?_, ?_, ?_, ?_, ?_, ?_, ?_, ?_, ?_, ?_⟩ <;>
    · intros
      simp_all [GitFileStatus.new]

/-- Witness for claim C6: a concrete raw status with INDEX_NEW and WT_NEW
set classifies to NewInIndex on the index side and NewInWorkdir on the
workdir side. -/
theorem c6_classification_first_match_wins_witness :
    LsdGit.stNewBoth.index_new = true
  ∧ LsdGit.stNewBoth.wt_new = true
  ∧ (GitFileStatus.new LsdGit.stNewBoth).index = GitStatus.NewInIndex
  ∧ (GitFileStatus.new LsdGit.stNewBoth).workdir = GitStatus.NewInWorkdir :=
  ⟨rfl, rfl,
    (c6_classification_first_match_wins LsdGit.stNewBoth).1 rfl,
    (c6_classification_first_match_wins LsdGit.stNewBoth).2.2.2.2.2.2.1 rfl⟩

/-- Claim C7, the colour map evaluated over the whole element enumeration:
the lookup succeeds for every element except TreeEdge (in particular it
succeeds for all ten GitStatus elements), and it misses for TreeEdge, whose
insert is commented out in src/color.rs although the crate's own
completeness test asserts that every variant is present and the
element-indexed access of style_default panics on a missing key. -/
theorem c7_colour_map_misses_only_tree_edge :
    ∀ e : Elem,
      (get_light_theme_colour_map.lookup e).isSome = !(e == Elem.TreeEdge) := by
  decide

/-- With the light-theme colour map installed, the style of a GitStatus
element is always the foreground-only style of its palette colour,
whatever the lscolors database holds: no GitStatus element yields an
lscolors indicator, and none of these elements is suid. -/
theorem style_of_gitStatus_elem (db : Option (String → Option Style))
    (s : GitStatus) :
    Colors.style { colors := some get_light_theme_colour_map, lscolors := db }
        (Elem.GitStatus s) =
      some { fg := get_light_theme_colour_map.lookup (Elem.GitStatus s),
             bg := none } := by
  cases db <;> cases s <;> rfl

/-- The render of a status pair, given that both status elements resolve to
a style: the index glyph painted with the index style, one plain space, the
workdir glyph painted with the workdir style. -/
theorem render_with_styles (c : Colors) (icons : GitStatus → String)
    (st : GitFileStatus) (s1 s2 : Style)
    (h1 : c.style (Elem.GitStatus st.index) = some s1)
    (h2 : c.style (Elem.GitStatus st.workdir) = some s2) :
    st.render c icons =
      some (paint s1 (icons st.index) ++ " " ++ paint s2 (icons st.workdir)) := by
  unfold GitFileStatus.render Colors.colorize
  rw [h1, h2]
  simp [ansiStringsToString, paint, Style.plain]

/-- Claim C9: with the default light-theme palette (and any lscolors
database and any icon set), rendering any status pair produces exactly the
index-side glyph painted with the palette colour of the index-side status,
one separating space, and the workdir-side glyph painted with the palette
colour of the workdir-side status; in particular a string is produced for
every pair, including Default on both sides. -/
theorem c9_render_two_painted_glyphs :
    ∀ (db : Option (String → Option Style)) (icons : GitStatus → String)
      (i w : GitStatus),
      GitFileStatus.render { index := i, workdir := w }
          { colors := some get_light_theme_colour_map, lscolors := db } icons =
        some (paint { fg := get_light_theme_colour_map.lookup (Elem.GitStatus i),
                      bg := none } (icons i)
          ++ " "
          ++ paint { fg := get_light_theme_colour_map.lookup (Elem.GitStatus w),
                     bg := none } (icons w)) := by
  intro db icons i w
  exact render_with_styles _ icons _ _ _
    (style_of_gitStatus_elem db i) (style_of_gitStatus_elem db w)

end LsdMeta

